import Mathlib

/-
Shallow embedding of `src/main.py`: a FastAPI + SQLite CRUD service for two
entities, products and services.

Modelling choices, read directly from the source:
- The SQLite database (tables `products` and `services` created by `init_db`)
  is a record `DB` holding each table as a list of rows in rowid order, plus
  the AUTOINCREMENT sequence of each table.  `INTEGER PRIMARY KEY AUTOINCREMENT`
  means a fresh row gets id `nextId` and the sequence strictly increases and is
  never rewound, even by deletes.  The `NOT NULL` columns are non-optional
  fields of the row structures; SQLite `REAL` values are carried as `Rat`
  (the handlers never compute with prices, they only store and return them).
- Each route handler becomes a function `DB → Outcome × DB` (plus its
  arguments).  `Outcome.ok` is a returned JSON body, `Outcome.httpError` is a
  raised `HTTPException(status_code, detail)`, and `Outcome.uncaught` is a
  `sqlite3.Error` that escapes the handler (no try/except around the call).
  A possible engine fault during an SQL statement is injected as an
  `Option String` argument (the `sqlite3.Error` message), `none` meaning the
  statement succeeds.
- Pydantic request validation (`class Product(BaseModel)` etc.) becomes
  `parseProduct` / `parseService` over a JSON value type: every declared field
  must be present with the declared type (numbers coerce to float); there is
  no further content validation.
- `cursor.rowcount` of an UPDATE/DELETE is the number of rows matched by the
  WHERE clause; `dict(row)` keeps the table's column order.
-/

namespace ITech

/-- JSON values as carried in request and response bodies. -/
inductive JValue where
  | jint (n : Int)
  | jnum (q : Rat)
  | jstr (s : String)
  | jarr (xs : List JValue)
  | jobj (fields : List (String × JValue))
  deriving Repr

/-- Pydantic model `Product` (main.py lines 48-52): the validated payload. -/
structure Product where
  name : String
  type : String
  buying_price : Rat
  selling_price : Rat
  deriving Repr, DecidableEq

/-- Pydantic model `Service` (main.py lines 54-57). -/
structure Service where
  name : String
  description : String
  price : Rat
  deriving Repr, DecidableEq

/-- A row of the `products` table (schema in `init_db`, main.py lines 29-35). -/
structure ProductRow where
  id : Int
  name : String
  type : String
  buying_price : Rat
  selling_price : Rat
  deriving Repr, DecidableEq

/-- A row of the `services` table (schema in `init_db`, main.py lines 37-43). -/
structure ServiceRow where
  id : Int
  name : String
  description : String
  price : Rat
  deriving Repr, DecidableEq

/-- The state of the database file `itech.db`: both tables in rowid order and
the AUTOINCREMENT sequence of each (`nextId` = id the next insert assigns). -/
structure DB where
  products : List ProductRow
  productsNextId : Int
  services : List ServiceRow
  servicesNextId : Int
  deriving Repr, DecidableEq

/-- The database right after `init_db` on a fresh file: empty tables,
AUTOINCREMENT ids start at 1. -/
def emptyDB : DB := ⟨[], 1, [], 1⟩

/-- What a handler invocation produces besides the new database state. -/
inductive Outcome where
  | ok (body : JValue)
  | httpError (status : Nat) (detail : String)
  | uncaught (msg : String)
  deriving Repr

/-- Key lookup in a JSON object's field list (first occurrence). -/
def jlookup (key : String) (fields : List (String × JValue)) : Option JValue :=
  match fields.find? (fun kv => kv.1 == key) with
  | some kv => some kv.2
  | none => none

/-- Pydantic `str` field: the value must be a JSON string. -/
def asStr : Option JValue → Option String
  | some (JValue.jstr s) => some s
  | _ => none

/-- Pydantic `float` field: a JSON number; integers coerce to float. -/
def asNum : Option JValue → Option Rat
  | some (JValue.jnum q) => some q
  | some (JValue.jint n) => some (n : Rat)
  | _ => none

/-- Request validation for `Product`: all four declared fields must be present
with the declared types; no other constraint is applied. -/
def parseProduct (j : JValue) : Option Product :=
  match j with
  | JValue.jobj fields =>
    match asStr (jlookup "name" fields), asStr (jlookup "type" fields),
          asNum (jlookup "buying_price" fields),
          asNum (jlookup "selling_price" fields) with
    | some n, some t, some b, some s => some ⟨n, t, b, s⟩
    | _, _, _, _ => none
  | _ => none

/-- Request validation for `Service`. -/
def parseService (j : JValue) : Option Service :=
  match j with
  | JValue.jobj fields =>
    match asStr (jlookup "name" fields), asStr (jlookup "description" fields),
          asNum (jlookup "price" fields) with
    | some n, some d, some p => some ⟨n, d, p⟩
    | _, _, _ => none
  | _ => none

/-- Row conversion `dict(product_row)`: columns in table order. -/
def productRowToDict (r : ProductRow) : JValue :=
  JValue.jobj [("id", JValue.jint r.id), ("name", JValue.jstr r.name),
    ("type", JValue.jstr r.type), ("buying_price", JValue.jnum r.buying_price),
    ("selling_price", JValue.jnum r.selling_price)]

/-- Row conversion `dict(service_row)`: columns in table order. -/
def serviceRowToDict (r : ServiceRow) : JValue :=
  JValue.jobj [("id", JValue.jint r.id), ("name", JValue.jstr r.name),
    ("description", JValue.jstr r.description), ("price", JValue.jnum r.price)]

/-- Does a success body carry the given top-level key? -/
def bodyHasKey (key : String) (o : Outcome) : Bool :=
  match o with
  | Outcome.ok (JValue.jobj fields) => (jlookup key fields).isSome
  | _ => false

/-- Is the outcome a raised `HTTPException` (of any status)? -/
def isHttpError (o : Outcome) : Bool :=
  match o with
  | Outcome.httpError _ _ => true
  | _ => false

/-- POST /products/ (main.py lines 66-77).  INSERT assigns the next
AUTOINCREMENT id; on `sqlite3.Error` the handler answers
500 "Database error: <msg>".  The response body is only the message. -/
def create_product (product : Product) (fault : Option String) (db : DB) :
    Outcome × DB :=
  match fault with
  | some e => (Outcome.httpError 500 ("Database error: " ++ e), db)
  | none =>
    (Outcome.ok (JValue.jobj [("message", JValue.jstr "Product added successfully")]),
     ⟨db.products ++ [⟨db.productsNextId, product.name, product.type,
        product.buying_price, product.selling_price⟩],
      db.productsNextId + 1, db.services, db.servicesNextId⟩)

/-- GET /products/ (main.py lines 79-84): SELECT * FROM products, every row
as a dict, no filtering or pagination. -/
def read_products (db : DB) : Outcome × DB :=
  (Outcome.ok (JValue.jobj [("products",
      JValue.jarr (db.products.map productRowToDict))]), db)

/-- GET /products/{product_id} (main.py lines 86-93). -/
def read_product (product_id : Int) (db : DB) : Outcome × DB :=
  (match db.products.find? (fun r => r.id == product_id) with
   | none => Outcome.httpError 404 "Product not found"
   | some r => Outcome.ok (productRowToDict r), db)

/-- PUT /products/{product_id} (main.py lines 95-106): UPDATE sets every
non-id column of every matching row, commits, then 404s when rowcount is 0.
No try/except: an engine fault escapes the handler. -/
def update_product (product_id : Int) (product : Product) (fault : Option String)
    (db : DB) : Outcome × DB :=
  match fault with
  | some e => (Outcome.uncaught e, db)
  | none =>
    let rowcount := (db.products.filter (fun r => r.id == product_id)).length
    ((if rowcount == 0 then Outcome.httpError 404 "Product not found"
      else Outcome.ok (JValue.jobj [("message",
        JValue.jstr "Product updated successfully")])),
     ⟨db.products.map (fun r =>
        if r.id == product_id then
          ⟨r.id, product.name, product.type, product.buying_price,
           product.selling_price⟩
        else r),
      db.productsNextId, db.services, db.servicesNextId⟩)

/-- DELETE /products/{product_id} (main.py lines 108-115): DELETE matching
rows, commit, then 404 when rowcount is 0.  No try/except. -/
def delete_product (product_id : Int) (fault : Option String) (db : DB) :
    Outcome × DB :=
  match fault with
  | some e => (Outcome.uncaught e, db)
  | none =>
    let rowcount := (db.products.filter (fun r => r.id == product_id)).length
    ((if rowcount == 0 then Outcome.httpError 404 "Product not found"
      else Outcome.ok (JValue.jobj [("message",
        JValue.jstr "Product deleted successfully")])),
     ⟨db.products.filter (fun r => !(r.id == product_id)),
      db.productsNextId, db.services, db.servicesNextId⟩)

/-- POST /services/ (main.py lines 118-129). -/
def create_service (service : Service) (fault : Option String) (db : DB) :
    Outcome × DB :=
  match fault with
  | some e => (Outcome.httpError 500 ("Database error: " ++ e), db)
  | none =>
    (Outcome.ok (JValue.jobj [("message", JValue.jstr "Service added successfully")]),
     ⟨db.products, db.productsNextId,
      db.services ++ [⟨db.servicesNextId, service.name, service.description,
        service.price⟩],
      db.servicesNextId + 1⟩)

/-- GET /services/ (main.py lines 131-136). -/
def read_services (db : DB) : Outcome × DB :=
  (Outcome.ok (JValue.jobj [("services",
      JValue.jarr (db.services.map serviceRowToDict))]), db)

/-- GET /services/{service_id} (main.py lines 138-145). -/
def read_service (service_id : Int) (db : DB) : Outcome × DB :=
  (match db.services.find? (fun r => r.id == service_id) with
   | none => Outcome.httpError 404 "Service not found"
   | some r => Outcome.ok (serviceRowToDict r), db)

/-- PUT /services/{service_id} (main.py lines 147-158). -/
def update_service (service_id : Int) (service : Service) (fault : Option String)
    (db : DB) : Outcome × DB :=
  match fault with
  | some e => (Outcome.uncaught e, db)
  | none =>
    let rowcount := (db.services.filter (fun r => r.id == service_id)).length
    ((if rowcount == 0 then Outcome.httpError 404 "Service not found"
      else Outcome.ok (JValue.jobj [("message",
        JValue.jstr "Service updated successfully")])),
     ⟨db.products, db.productsNextId,
      db.services.map (fun r =>
        if r.id == service_id then
          ⟨r.id, service.name, service.description, service.price⟩
        else r),
      db.servicesNextId⟩)

/-- DELETE /services/{service_id} (main.py lines 160-167). -/
def delete_service (service_id : Int) (fault : Option String) (db : DB) :
    Outcome × DB :=
  match fault with
  | some e => (Outcome.uncaught e, db)
  | none =>
    let rowcount := (db.services.filter (fun r => r.id == service_id)).length
    ((if rowcount == 0 then Outcome.httpError 404 "Service not found"
      else Outcome.ok (JValue.jobj [("message",
        JValue.jstr "Service deleted successfully")])),
     ⟨db.products, db.productsNextId,
      db.services.filter (fun r => !(r.id == service_id)),
      db.servicesNextId⟩)

/-- Any request the service can handle (the ten routes); faults omitted,
since a faulted statement leaves the database state unchanged. -/
inductive Op where
  | createP (p : Product)
  | listP
  | readP (id : Int)
  | updateP (id : Int) (p : Product)
  | deleteP (id : Int)
  | createS (s : Service)
  | listS
  | readS (id : Int)
  | updateS (id : Int) (s : Service)
  | deleteS (id : Int)

/-- The database state after one request. -/
def step (op : Op) (db : DB) : DB :=
  match op with
  | Op.createP p => (create_product p none db).2
  | Op.listP => (read_products db).2
  | Op.readP i => (read_product i db).2
  | Op.updateP i p => (update_product i p none db).2
  | Op.deleteP i => (delete_product i none db).2
  | Op.createS s => (create_service s none db).2
  | Op.listS => (read_services db).2
  | Op.readS i => (read_service i db).2
  | Op.updateS i s => (update_service i s none db).2
  | Op.deleteS i => (delete_service i none db).2

/-- The database state after a sequence of requests. -/
def run (ops : List Op) (db : DB) : DB :=
  ops.foldl (fun d op => step op d) db

/-- Well-formedness of a database state: every stored id is below the
AUTOINCREMENT sequence and ids are unique within each table.  It holds for
the fresh database and is preserved by every request. -/
@[reducible] def WF (db : DB) : Prop :=
  (∀ r ∈ db.products, r.id < db.productsNextId) ∧
  (db.products.map (fun r => r.id)).Nodup ∧
  (∀ r ∈ db.services, r.id < db.servicesNextId) ∧
  (db.services.map (fun r => r.id)).Nodup

/-- N successful creates in a row on the products table. -/
def createManyP (ps : List Product) (db : DB) : DB :=
  ps.foldl (fun d p => (create_product p none d).2) db

/-- N successful creates in a row on the services table. -/
def createManyS (ss : List Service) (db : DB) : DB :=
  ss.foldl (fun d s => (create_service s none d).2) db

/-- The product rows a run of creates appends, ids counting up from `n`. -/
def buildRowsP : Int → List Product → List ProductRow
  | _, [] => []
  | n, p :: ps =>
    ⟨n, p.name, p.type, p.buying_price, p.selling_price⟩ :: buildRowsP (n + 1) ps

/-- The service rows a run of creates appends, ids counting up from `n`. -/
def buildRowsS : Int → List Service → List ServiceRow
  | _, [] => []
  | n, s :: ss => ⟨n, s.name, s.description, s.price⟩ :: buildRowsS (n + 1) ss

/-- The `k` consecutive integers starting at `n`. -/
def idsFrom : Int → Nat → List Int
  | _, 0 => []
  | n, k + 1 => n :: idsFrom (n + 1) k

/-- Sample valid product payload used by concrete witnesses. -/
def widget : Product := ⟨"Widget", "Hardware", 3, 7⟩

/-- A second product payload, different from `widget` in every field. -/
def gadget : Product := ⟨"Gadget", "Electronics", 2, 5⟩

/-- Sample valid service payload used by concrete witnesses. -/
def repair : Service := ⟨"Repair", "Fix broken widgets", 10⟩

/-- A second service payload. -/
def install : Service := ⟨"Install", "Install a widget", 4⟩

/-! ## General list lemmas used by the handler proofs -/

theorem find?_append_of_none {α : Type} (p : α → Bool) (l₁ l₂ : List α)
    (h : ∀ a ∈ l₁, p a = false) : (l₁ ++ l₂).find? p = l₂.find? p := by
  induction l₁ with
  | nil => rfl
  | cons a l ih =>
    have ha : p a = false := h a (List.mem_cons_self a l)
    simp only [List.cons_append, List.find?, ha]
    exact ih (fun x hx => h x (List.mem_cons_of_mem a hx))

theorem find?_map_comp {α β : Type} (f : α → β) (p : β → Bool) (l : List α) :
    (l.map f).find? p = (l.find? (fun a => p (f a))).map f := by
  induction l with
  | nil => rfl
  | cons a l ih =>
    cases ha : p (f a) with
    | true => simp only [List.map_cons, List.find?, ha]; rfl
    | false => simpa only [List.map_cons, List.find?, ha] using ih

theorem filter_map_frame {α : Type} (f : α → α) (q : α → Bool) (l : List α)
    (hq : ∀ a, q (f a) = q a) (hfix : ∀ a, q a = true → f a = a) :
    (l.map f).filter q = l.filter q := by
  induction l with
  | nil => rfl
  | cons a l ih =>
    cases ha : q a with
    | true =>
      simp [List.map_cons, List.filter_cons, hq a, ha, hfix a ha, ih]
    | false =>
      simp [List.map_cons, List.filter_cons, hq a, ha, ih]

theorem filter_self_idem {α : Type} (q : α → Bool) (l : List α) :
    (l.filter q).filter q = l.filter q := by
  induction l with
  | nil => rfl
  | cons a l ih =>
    cases ha : q a with
    | true => simp [List.filter_cons, ha, ih]
    | false => simp [List.filter_cons, ha, ih]

/-! ## Claim C1 -/

/-- Claim C1: for every valid Product payload, create followed by read on the
id assigned by that create returns a record whose name, type, buying_price
and selling_price equal the payload's, with the assigned id attached.  The
hypothesis says the AUTOINCREMENT sequence is ahead of every stored id, which
holds in every reachable database state. -/
theorem create_then_read_roundtrip (p : Product) (db : DB)
    (h : ∀ r ∈ db.products, r.id < db.productsNextId) :
    (read_product db.productsNextId (create_product p none db).2).1 =
      Outcome.ok (JValue.jobj [("id", JValue.jint db.productsNextId),
        ("name", JValue.jstr p.name), ("type", JValue.jstr p.type),
        ("buying_price", JValue.jnum p.buying_price),
        ("selling_price", JValue.jnum p.selling_price)]) := by
  have hnone : ∀ r ∈ db.products,
      (fun r : ProductRow => r.id == db.productsNextId) r = false := by
    intro r hr
    have hlt := h r hr
    simp only [beq_eq_false_iff_ne, ne_eq]
    exact Int.ne_of_lt hlt
  have hfind : ((create_product p none db).2).products.find?
      (fun r => r.id == db.productsNextId) =
      some ⟨db.productsNextId, p.name, p.type, p.buying_price, p.selling_price⟩ := by
    show (db.products ++ [_]).find? _ = _
    rw [find?_append_of_none _ _ _ hnone]
    simp [List.find?]
  simp [read_product, hfind, productRowToDict]

theorem create_then_read_roundtrip_witness :
    (∀ r ∈ emptyDB.products, r.id < emptyDB.productsNextId) ∧
    (read_product emptyDB.productsNextId (create_product widget none emptyDB).2).1 =
      Outcome.ok (JValue.jobj [("id", JValue.jint emptyDB.productsNextId),
        ("name", JValue.jstr widget.name), ("type", JValue.jstr widget.type),
        ("buying_price", JValue.jnum widget.buying_price),
        ("selling_price", JValue.jnum widget.selling_price)]) :=
  ⟨by simp [emptyDB], create_then_read_roundtrip widget emptyDB (by simp [emptyDB])⟩

/-! ## Claim C2 -/

/-- Claim C2 counterexample: the response of a successful create carries no
"id" key at all — only the confirmation message — for products and services
alike. -/
theorem create_response_has_no_id :
    bodyHasKey "id" (create_product widget none emptyDB).1 = false
    ∧ bodyHasKey "message" (create_product widget none emptyDB).1 = true
    ∧ bodyHasKey "id" (create_service repair none emptyDB).1 = false :=
  ⟨rfl, rfl, rfl⟩

/-- Claim C2 amended: for every validated payload, a successful create
returns only the entity-specific confirmation message; the newly assigned id
is not part of the response body. -/
theorem create_response_message_only (p : Product) (s : Service) (db : DB) :
    (create_product p none db).1 =
      Outcome.ok (JValue.jobj [("message", JValue.jstr "Product added successfully")])
    ∧ bodyHasKey "id" (create_product p none db).1 = false
    ∧ (create_service s none db).1 =
      Outcome.ok (JValue.jobj [("message", JValue.jstr "Service added successfully")])
    ∧ bodyHasKey "id" (create_service s none db).1 = false :=
  ⟨rfl, rfl, rfl, rfl⟩

/-! ## Claim C3 -/

/-- Claim C3 counterexample: the schemas accept the empty string in every
text field, and a create then stores rows whose text columns are empty. -/
theorem empty_text_accepted_and_stored :
    parseProduct (JValue.jobj [("name", JValue.jstr ""), ("type", JValue.jstr ""),
      ("buying_price", JValue.jnum 1), ("selling_price", JValue.jnum 2)])
      = some ⟨"", "", 1, 2⟩
    ∧ (create_product ⟨"", "", 1, 2⟩ none emptyDB).2.products = [⟨1, "", "", 1, 2⟩]
    ∧ parseService (JValue.jobj [("name", JValue.jstr ""),
      ("description", JValue.jstr ""), ("price", JValue.jnum 3)])
      = some ⟨"", "", 3⟩
    ∧ (create_service ⟨"", "", 3⟩ none emptyDB).2.services = [⟨1, "", "", 3⟩] :=
  ⟨rfl, rfl, rfl, rfl⟩

/-- Claim C3 amended: the entity schemas require each declared text field to
be present and string-typed (a missing or non-string field is rejected), but
they accept every string value including the empty string, and a create
stores the given strings unchanged. -/
theorem schema_text_fields_typed_not_nonempty (n t : String) (b s : Rat) (db : DB) :
    parseProduct (JValue.jobj [("name", JValue.jstr n), ("type", JValue.jstr t),
      ("buying_price", JValue.jnum b), ("selling_price", JValue.jnum s)])
      = some ⟨n, t, b, s⟩
    ∧ parseProduct (JValue.jobj [("type", JValue.jstr t),
      ("buying_price", JValue.jnum b), ("selling_price", JValue.jnum s)]) = none
    ∧ parseProduct (JValue.jobj [("name", JValue.jint 5), ("type", JValue.jstr t),
      ("buying_price", JValue.jnum b), ("selling_price", JValue.jnum s)]) = none
    ∧ (create_product ⟨n, t, b, s⟩ none db).2.products
      = db.products ++ [⟨db.productsNextId, n, t, b, s⟩]
    ∧ parseService (JValue.jobj [("name", JValue.jstr n),
      ("description", JValue.jstr t), ("price", JValue.jnum b)]) = some ⟨n, t, b⟩ :=
  ⟨rfl, rfl, rfl, rfl, rfl⟩

/-! ## Claim C4 -/

/-- Claim C4: for both entities, when no row matches the id, read, update and
delete each answer 404 with the entity-specific message and no storage fault
occurs; moreover for update and delete, over every database state, the 404 is
equivalent to the statement's affected-row-count being zero. -/
theorem absent_id_yields_not_found (pid sid : Int) (p : Product) (s : Service)
    (db : DB) (hp : ∀ r ∈ db.products, r.id ≠ pid)
    (hs : ∀ r ∈ db.services, r.id ≠ sid) :
    (read_product pid db).1 = Outcome.httpError 404 "Product not found"
    ∧ (update_product pid p none db).1 = Outcome.httpError 404 "Product not found"
    ∧ (delete_product pid none db).1 = Outcome.httpError 404 "Product not found"
    ∧ (read_service sid db).1 = Outcome.httpError 404 "Service not found"
    ∧ (update_service sid s none db).1 = Outcome.httpError 404 "Service not found"
    ∧ (delete_service sid none db).1 = Outcome.httpError 404 "Service not found"
    ∧ (∀ d : DB, ((update_product pid p none d).1 =
        Outcome.httpError 404 "Product not found"
        ↔ (d.products.filter (fun r => r.id == pid)).length = 0))
    ∧ (∀ d : DB, ((delete_product pid none d).1 =
        Outcome.httpError 404 "Product not found"
        ↔ (d.products.filter (fun r => r.id == pid)).length = 0))
    ∧ (∀ d : DB, ((update_service sid s none d).1 =
        Outcome.httpError 404 "Service not found"
        ↔ (d.services.filter (fun r => r.id == sid)).length = 0))
    ∧ (∀ d : DB, ((delete_service sid none d).1 =
        Outcome.httpError 404 "Service not found"
        ↔ (d.services.filter (fun r => r.id == sid)).length = 0)) := by
  have hfwP : db.products.find? (fun r => r.id == pid) = none :=
    List.find?_eq_none.mpr (fun x hx => by simp [hp x hx])
  have hfilP : db.products.filter (fun r => r.id == pid) = [] :=
    List.filter_eq_nil_iff.mpr (fun x hx => by simp [hp x hx])
  have hfwS : db.services.find? (fun r => r.id == sid) = none :=
    List.find?_eq_none.mpr (fun x hx => by simp [hs x hx])
  have hfilS : db.services.filter (fun r => r.id == sid) = [] :=
    List.filter_eq_nil_iff.mpr (fun x hx => by simp [hs x hx])
  refine ⟨by simp [read_product, hfwP], by simp [update_product, hfilP],
    by simp [delete_product, hfilP], by simp [read_service, hfwS],
    by simp [update_service, hfilS], by simp [delete_service, hfilS],
    ?_, ?_, ?_, ?_⟩
  · intro d
    by_cases hd : (d.products.filter (fun r => r.id == pid)).length = 0
    · simp [update_product, hd]
    · simp [update_product, hd]
  · intro d
    by_cases hd : (d.products.filter (fun r => r.id == pid)).length = 0
    · simp [delete_product, hd]
    · simp [delete_product, hd]
  · intro d
    by_cases hd : (d.services.filter (fun r => r.id == sid)).length = 0
    · simp [update_service, hd]
    · simp [update_service, hd]
  · intro d
    by_cases hd : (d.services.filter (fun r => r.id == sid)).length = 0
    · simp [delete_service, hd]
    · simp [delete_service, hd]

theorem absent_id_yields_not_found_witness :
    ((∀ r ∈ emptyDB.products, r.id ≠ (7 : Int))
      ∧ (∀ r ∈ emptyDB.services, r.id ≠ (9 : Int)))
    ∧ (read_product 7 emptyDB).1 = Outcome.httpError 404 "Product not found"
    ∧ (read_service 9 emptyDB).1 = Outcome.httpError 404 "Service not found" :=
  ⟨⟨by decide, by decide⟩,
    (absent_id_yields_not_found 7 9 widget repair emptyDB
      (by decide) (by decide)).1,
    (absent_id_yields_not_found 7 9 widget repair emptyDB
      (by decide) (by decide)).2.2.2.1⟩

/-! ## Claim C6 -/

theorem find?_update_product (l : List ProductRow) (pid : Int) (p2 : Product)
    (h : ∃ r ∈ l, r.id = pid) :
    (l.map (fun r => if r.id == pid then
        (⟨r.id, p2.name, p2.type, p2.buying_price, p2.selling_price⟩ : ProductRow)
      else r)).find? (fun r => r.id == pid)
    = some ⟨pid, p2.name, p2.type, p2.buying_price, p2.selling_price⟩ := by
  induction l with
  | nil => simp at h
  | cons a l ih =>
    by_cases ha : a.id = pid
    · subst ha
      simp [List.find?]
    · have h' : ∃ r ∈ l, r.id = pid := by
        rcases h with ⟨r, hr, hrid⟩
        rcases List.mem_cons.mp hr with rfl | hr'
        · exact absurd hrid ha
        · exact ⟨r, hr', hrid⟩
      have ha' : (a.id == pid) = false := by simpa using ha
      have hfa : (if (a.id == pid) = true then
          (⟨a.id, p2.name, p2.type, p2.buying_price, p2.selling_price⟩ : ProductRow)
        else a) = a := by rw [ha']; simp
      rw [List.map_cons, hfa, List.find?_cons_of_neg _ (by simp [ha'])]
      exact ih h'

theorem find?_update_service (l : List ServiceRow) (sid : Int) (s2 : Service)
    (h : ∃ r ∈ l, r.id = sid) :
    (l.map (fun r => if r.id == sid then
        (⟨r.id, s2.name, s2.description, s2.price⟩ : ServiceRow)
      else r)).find? (fun r => r.id == sid)
    = some ⟨sid, s2.name, s2.description, s2.price⟩ := by
  induction l with
  | nil => simp at h
  | cons a l ih =>
    by_cases ha : a.id = sid
    · subst ha
      simp [List.find?]
    · have h' : ∃ r ∈ l, r.id = sid := by
        rcases h with ⟨r, hr, hrid⟩
        rcases List.mem_cons.mp hr with rfl | hr'
        · exact absurd hrid ha
        · exact ⟨r, hr', hrid⟩
      have ha' : (a.id == sid) = false := by simpa using ha
      have hfa : (if (a.id == sid) = true then
          (⟨a.id, s2.name, s2.description, s2.price⟩ : ServiceRow)
        else a) = a := by rw [ha']; simp
      rw [List.map_cons, hfa, List.find?_cons_of_neg _ (by simp [ha'])]
      exact ih h'

theorem filter_id_length_ne_zero {α : Type} (q : α → Bool) (l : List α)
    (r : α) (hr : r ∈ l) (hq : q r = true) : (l.filter q).length ≠ 0 := by
  intro h0
  rw [List.length_eq_zero] at h0
  have : r ∈ l.filter q := List.mem_filter.mpr ⟨hr, hq⟩
  rw [h0] at this
  cases this

/-- Claim C6: for an existing id and a valid payload, update succeeds and a
subsequent read returns exactly the new payload with the same id attached —
every non-id field is replaced, the id is unchanged — for both entities. -/
theorem update_then_read_full_replacement (pid sid : Int) (p2 : Product)
    (s2 : Service) (db : DB)
    (hp : ∃ r ∈ db.products, r.id = pid) (hs : ∃ r ∈ db.services, r.id = sid) :
    (update_product pid p2 none db).1 =
      Outcome.ok (JValue.jobj [("message", JValue.jstr "Product updated successfully")])
    ∧ (read_product pid (update_product pid p2 none db).2).1 =
      Outcome.ok (JValue.jobj [("id", JValue.jint pid),
        ("name", JValue.jstr p2.name), ("type", JValue.jstr p2.type),
        ("buying_price", JValue.jnum p2.buying_price),
        ("selling_price", JValue.jnum p2.selling_price)])
    ∧ (update_service sid s2 none db).1 =
      Outcome.ok (JValue.jobj [("message", JValue.jstr "Service updated successfully")])
    ∧ (read_service sid (update_service sid s2 none db).2).1 =
      Outcome.ok (JValue.jobj [("id", JValue.jint sid),
        ("name", JValue.jstr s2.name), ("description", JValue.jstr s2.description),
        ("price", JValue.jnum s2.price)]) := by
  obtain ⟨rp, hrp, hrpid⟩ := hp
  obtain ⟨rs, hrs, hrsid⟩ := hs
  have hlp : (db.products.filter (fun r => r.id == pid)).length ≠ 0 :=
    filter_id_length_ne_zero _ _ rp hrp (by simp [hrpid])
  have hls : (db.services.filter (fun r => r.id == sid)).length ≠ 0 :=
    filter_id_length_ne_zero _ _ rs hrs (by simp [hrsid])
  have hfp : (update_product pid p2 none db).2.products.find?
      (fun r => r.id == pid) =
      some ⟨pid, p2.name, p2.type, p2.buying_price, p2.selling_price⟩ :=
    find?_update_product db.products pid p2 ⟨rp, hrp, hrpid⟩
  have hfs : (update_service sid s2 none db).2.services.find?
      (fun r => r.id == sid) = some ⟨sid, s2.name, s2.description, s2.price⟩ :=
    find?_update_service db.services sid s2 ⟨rs, hrs, hrsid⟩
  refine ⟨by simp [update_product, hlp], ?_, by simp [update_service, hls], ?_⟩
  · simp [read_product, hfp, productRowToDict]
  · simp [read_service, hfs, serviceRowToDict]

theorem update_then_read_full_replacement_witness :
    ((∃ r ∈ (create_product widget none emptyDB).2.products, r.id = (1 : Int))
      ∧ (∃ r ∈ (create_service repair none (create_product widget none emptyDB).2).2.services,
          r.id = (1 : Int)))
    ∧ (read_product 1 (update_product 1 gadget none
        (create_service repair none (create_product widget none emptyDB).2).2).2).1 =
      Outcome.ok (JValue.jobj [("id", JValue.jint 1),
        ("name", JValue.jstr gadget.name), ("type", JValue.jstr gadget.type),
        ("buying_price", JValue.jnum gadget.buying_price),
        ("selling_price", JValue.jnum gadget.selling_price)]) :=
  ⟨⟨by decide, by decide⟩,
    (update_then_read_full_replacement 1 1 gadget install
      (create_service repair none (create_product widget none emptyDB).2).2
      (by decide) (by decide)).2.1⟩

/-! ## Claim C7 -/

/-- Claim C7: after a successful delete of an existing id, a read of that id
answers 404 and a second delete also answers 404 (never a fault), for both
entities. -/
theorem delete_then_read_and_redelete_not_found (pid sid : Int) (db : DB)
    (hp : ∃ r ∈ db.products, r.id = pid) (hs : ∃ r ∈ db.services, r.id = sid) :
    (delete_product pid none db).1 =
      Outcome.ok (JValue.jobj [("message", JValue.jstr "Product deleted successfully")])
    ∧ (read_product pid (delete_product pid none db).2).1 =
      Outcome.httpError 404 "Product not found"
    ∧ (delete_product pid none (delete_product pid none db).2).1 =
      Outcome.httpError 404 "Product not found"
    ∧ (delete_service sid none db).1 =
      Outcome.ok (JValue.jobj [("message", JValue.jstr "Service deleted successfully")])
    ∧ (read_service sid (delete_service sid none db).2).1 =
      Outcome.httpError 404 "Service not found"
    ∧ (delete_service sid none (delete_service sid none db).2).1 =
      Outcome.httpError 404 "Service not found" := by
  obtain ⟨rp, hrp, hrpid⟩ := hp
  obtain ⟨rs, hrs, hrsid⟩ := hs
  have hlp : (db.products.filter (fun r => r.id == pid)).length ≠ 0 :=
    filter_id_length_ne_zero _ _ rp hrp (by simp [hrpid])
  have hls : (db.services.filter (fun r => r.id == sid)).length ≠ 0 :=
    filter_id_length_ne_zero _ _ rs hrs (by simp [hrsid])
  have hgoneP : ∀ x ∈ db.products.filter (fun r => !(r.id == pid)),
      ¬((fun r : ProductRow => r.id == pid) x = true) := by
    intro x hx
    have := (List.mem_filter.mp hx).2
    simp at this ⊢
    exact this
  have hgoneS : ∀ x ∈ db.services.filter (fun r => !(r.id == sid)),
      ¬((fun r : ServiceRow => r.id == sid) x = true) := by
    intro x hx
    have := (List.mem_filter.mp hx).2
    simp at this ⊢
    exact this
  have hfp : (delete_product pid none db).2.products.find?
      (fun r => r.id == pid) = none := List.find?_eq_none.mpr hgoneP
  have hfs : (delete_service sid none db).2.services.find?
      (fun r => r.id == sid) = none := List.find?_eq_none.mpr hgoneS
  have hflp : (delete_product pid none db).2.products.filter
      (fun r => r.id == pid) = [] := List.filter_eq_nil_iff.mpr hgoneP
  have hfls : (delete_service sid none db).2.services.filter
      (fun r => r.id == sid) = [] := List.filter_eq_nil_iff.mpr hgoneS
  refine ⟨by simp [delete_product, hlp], by simp [read_product, hfp],
    ?_, by simp [delete_service, hls], by simp [read_service, hfs], ?_⟩
  · show (delete_product pid none (delete_product pid none db).2).1 = _
    simp [delete_product, hflp]
  · show (delete_service sid none (delete_service sid none db).2).1 = _
    simp [delete_service, hfls]

theorem delete_then_read_and_redelete_not_found_witness :
    ((∃ r ∈ (create_product widget none emptyDB).2.products, r.id = (1 : Int))
      ∧ (∃ r ∈ (create_service repair none (create_product widget none emptyDB).2).2.services,
          r.id = (1 : Int)))
    ∧ (read_product 1 (delete_product 1 none
        (create_service repair none (create_product widget none emptyDB).2).2).2).1 =
      Outcome.httpError 404 "Product not found" :=
  ⟨⟨by decide, by decide⟩,
    (delete_then_read_and_redelete_not_found 1 1
      (create_service repair none (create_product widget none emptyDB).2).2
      (by decide) (by decide)).2.1⟩

/-! ## Claim C10 -/

/-- Claim C10: every request touching one entity leaves the other entity's
table and id sequence unchanged (reads change nothing at all), and within a
table, update and delete leave every row with a different id unchanged. -/
theorem frame_other_entity_and_other_rows (pid sid : Int) (p : Product)
    (s : Service) (db : DB) (e : Option String) :
    (create_product p e db).2.services = db.services
    ∧ (create_product p e db).2.servicesNextId = db.servicesNextId
    ∧ (update_product pid p e db).2.services = db.services
    ∧ (update_product pid p e db).2.servicesNextId = db.servicesNextId
    ∧ (delete_product pid e db).2.services = db.services
    ∧ (delete_product pid e db).2.servicesNextId = db.servicesNextId
    ∧ (read_products db).2 = db
    ∧ (read_product pid db).2 = db
    ∧ (create_service s e db).2.products = db.products
    ∧ (create_service s e db).2.productsNextId = db.productsNextId
    ∧ (update_service sid s e db).2.products = db.products
    ∧ (update_service sid s e db).2.productsNextId = db.productsNextId
    ∧ (delete_service sid e db).2.products = db.products
    ∧ (delete_service sid e db).2.productsNextId = db.productsNextId
    ∧ (read_services db).2 = db
    ∧ (read_service sid db).2 = db
    ∧ (update_product pid p e db).2.products.filter (fun r => !(r.id == pid))
      = db.products.filter (fun r => !(r.id == pid))
    ∧ (delete_product pid e db).2.products.filter (fun r => !(r.id == pid))
      = db.products.filter (fun r => !(r.id == pid))
    ∧ (update_service sid s e db).2.services.filter (fun r => !(r.id == sid))
      = db.services.filter (fun r => !(r.id == sid))
    ∧ (delete_service sid e db).2.services.filter (fun r => !(r.id == sid))
      = db.services.filter (fun r => !(r.id == sid)) := by
  cases e with
  | some m =>
    exact ⟨rfl, rfl, rfl, rfl, rfl, rfl, rfl, rfl, rfl, rfl, rfl, rfl, rfl,
      rfl, rfl, rfl, rfl, rfl, rfl, rfl⟩
  | none =>
    refine ⟨rfl, rfl, rfl, rfl, rfl, rfl, rfl, rfl, rfl, rfl, rfl, rfl, rfl,
      rfl, rfl, rfl, ?_, ?_, ?_, ?_⟩
    · exact filter_map_frame _ _ _
        (fun a => by by_cases h : (a.id == pid) = true <;> simp [h])
        (fun a ha => by
          have hno : (a.id == pid) = false := by simpa using ha
          simp [hno])
    · exact filter_self_idem _ _
    · exact filter_map_frame _ _ _
        (fun a => by by_cases h : (a.id == sid) = true <;> simp [h])
        (fun a ha => by
          have hno : (a.id == sid) = false := by simpa using ha
          simp [hno])
    · exact filter_self_idem _ _

/-! ## Claim C9 -/

/-- Claim C9 counterexample: an engine fault during an update is not turned
into an HTTP response at all — the exception escapes the handler uncaught,
so in particular it is not a 500 "Database error: ..." response. -/
theorem update_fault_not_wrapped :
    (update_product 1 widget (some "disk I/O error") emptyDB).1 =
      Outcome.uncaught "disk I/O error"
    ∧ isHttpError (update_product 1 widget (some "disk I/O error") emptyDB).1 = false :=
  ⟨rfl, rfl⟩

/-- Claim C9 amended: only the two create handlers catch engine faults and
answer 500 with "Database error: " followed by the engine's message (leaving
the database unchanged); a fault during update or delete escapes the handler
uncaught. -/
theorem fault_wrapping_create_only (m : String) (p : Product) (s : Service)
    (pid sid : Int) (db : DB) :
    (create_product p (some m) db).1 = Outcome.httpError 500 ("Database error: " ++ m)
    ∧ (create_service s (some m) db).1 = Outcome.httpError 500 ("Database error: " ++ m)
    ∧ (update_product pid p (some m) db).1 = Outcome.uncaught m
    ∧ (delete_product pid (some m) db).1 = Outcome.uncaught m
    ∧ (update_service sid s (some m) db).1 = Outcome.uncaught m
    ∧ (delete_service sid (some m) db).1 = Outcome.uncaught m
    ∧ (create_product p (some m) db).2 = db
    ∧ (update_product pid p (some m) db).2 = db
    ∧ (delete_product pid (some m) db).2 = db :=
  ⟨rfl, rfl, rfl, rfl, rfl, rfl, rfl, rfl, rfl⟩

/-! ## Claim C5 -/

theorem createManyP_products (ps : List Product) (db : DB) :
    (createManyP ps db).products = db.products ++ buildRowsP db.productsNextId ps := by
  induction ps generalizing db with
  | nil => simp [createManyP, buildRowsP]
  | cons p ps ih =>
    show (createManyP ps (create_product p none db).2).products = _
    rw [ih]
    simp [create_product, buildRowsP]

theorem createManyS_services (ss : List Service) (db : DB) :
    (createManyS ss db).services = db.services ++ buildRowsS db.servicesNextId ss := by
  induction ss generalizing db with
  | nil => simp [createManyS, buildRowsS]
  | cons s ss ih =>
    show (createManyS ss (create_service s none db).2).services = _
    rw [ih]
    simp [create_service, buildRowsS]

theorem buildRowsP_map_id (n : Int) (ps : List Product) :
    (buildRowsP n ps).map (fun r => r.id) = idsFrom n ps.length := by
  induction ps generalizing n with
  | nil => rfl
  | cons p ps ih => simp [buildRowsP, idsFrom, ih]

theorem buildRowsS_map_id (n : Int) (ss : List Service) :
    (buildRowsS n ss).map (fun r => r.id) = idsFrom n ss.length := by
  induction ss generalizing n with
  | nil => rfl
  | cons s ss ih => simp [buildRowsS, idsFrom, ih]

theorem buildRowsP_length (n : Int) (ps : List Product) :
    (buildRowsP n ps).length = ps.length := by
  induction ps generalizing n with
  | nil => rfl
  | cons p ps ih => simp [buildRowsP, ih]

theorem buildRowsS_length (n : Int) (ss : List Service) :
    (buildRowsS n ss).length = ss.length := by
  induction ss generalizing n with
  | nil => rfl
  | cons s ss ih => simp [buildRowsS, ih]

theorem le_of_mem_idsFrom (k : Nat) (n m : Int) (h : m ∈ idsFrom n k) : n ≤ m := by
  induction k generalizing n with
  | zero => simp [idsFrom] at h
  | succ k ih =>
    simp only [idsFrom] at h
    rcases List.mem_cons.mp h with rfl | h'
    · exact le_refl m
    · have := ih (n + 1) h'
      omega

theorem idsFrom_pairwise (k : Nat) (n : Int) :
    (idsFrom n k).Pairwise (fun a b => a < b) := by
  induction k generalizing n with
  | zero => simp [idsFrom]
  | succ k ih =>
    simp only [idsFrom]
    refine List.Pairwise.cons ?_ (ih (n + 1))
    intro m hm
    have := le_of_mem_idsFrom k (n + 1) m hm
    omega

/-- Claim C5: after N successful creates on a fresh table, List returns
exactly the N created records as complete rows — no filtering or pagination —
with ids 1, 2, ..., N in that order, so each entry carries a distinct id and
the sequence is sorted ascending.  Both entities behave alike. -/
theorem list_after_creates_complete_ordered (ps : List Product) (ss : List Service) :
    (read_products (createManyP ps emptyDB)).1 =
      Outcome.ok (JValue.jobj [("products",
        JValue.jarr ((createManyP ps emptyDB).products.map productRowToDict))])
    ∧ (createManyP ps emptyDB).products = buildRowsP 1 ps
    ∧ (createManyP ps emptyDB).products.length = ps.length
    ∧ (createManyP ps emptyDB).products.map (fun r => r.id) = idsFrom 1 ps.length
    ∧ ((createManyP ps emptyDB).products.map (fun r => r.id)).Pairwise
        (fun a b => a < b)
    ∧ ((createManyP ps emptyDB).products.map (fun r => r.id)).Nodup
    ∧ (read_services (createManyS ss emptyDB)).1 =
      Outcome.ok (JValue.jobj [("services",
        JValue.jarr ((createManyS ss emptyDB).services.map serviceRowToDict))])
    ∧ (createManyS ss emptyDB).services = buildRowsS 1 ss
    ∧ (createManyS ss emptyDB).services.length = ss.length
    ∧ (createManyS ss emptyDB).services.map (fun r => r.id) = idsFrom 1 ss.length
    ∧ ((createManyS ss emptyDB).services.map (fun r => r.id)).Pairwise
        (fun a b => a < b)
    ∧ ((createManyS ss emptyDB).services.map (fun r => r.id)).Nodup := by
  have hp : (createManyP ps emptyDB).products = buildRowsP 1 ps := by
    simpa [emptyDB] using createManyP_products ps emptyDB
  have hs : (createManyS ss emptyDB).services = buildRowsS 1 ss := by
    simpa [emptyDB] using createManyS_services ss emptyDB
  have hmapP : (createManyP ps emptyDB).products.map (fun r => r.id)
      = idsFrom 1 ps.length := by rw [hp, buildRowsP_map_id]
  have hmapS : (createManyS ss emptyDB).services.map (fun r => r.id)
      = idsFrom 1 ss.length := by rw [hs, buildRowsS_map_id]
  have hpairP : ((createManyP ps emptyDB).products.map (fun r => r.id)).Pairwise
      (fun a b => a < b) := by rw [hmapP]; exact idsFrom_pairwise _ 1
  have hpairS : ((createManyS ss emptyDB).services.map (fun r => r.id)).Pairwise
      (fun a b => a < b) := by rw [hmapS]; exact idsFrom_pairwise _ 1
  refine ⟨rfl, hp, ?_, hmapP, hpairP, ?_, rfl, hs, ?_, hmapS, hpairS, ?_⟩
  · rw [hp, buildRowsP_length]
  · exact hpairP.imp (fun hab => ne_of_lt hab)
  · rw [hs, buildRowsS_length]
  · exact hpairS.imp (fun hab => ne_of_lt hab)

/-! ## Claim C8 -/

theorem bound_insert {α : Type} (idf : α → Int) (l : List α) (n : Int) (x : α)
    (hx : idf x = n) (h1 : ∀ r ∈ l, idf r < n) :
    ∀ r ∈ l ++ [x], idf r < n + 1 := by
  intro r hr
  rcases List.mem_append.mp hr with hm | hm
  · have := h1 r hm
    omega
  · rcases List.mem_singleton.mp hm with rfl
    omega

theorem nodup_insert_id {α : Type} (idf : α → Int) (l : List α) (n : Int) (x : α)
    (hx : idf x = n) (h1 : ∀ r ∈ l, idf r < n) (h2 : (l.map idf).Nodup) :
    ((l ++ [x]).map idf).Nodup := by
  rw [List.map_append, List.nodup_append]
  refine ⟨h2, List.nodup_singleton _, ?_⟩
  intro a ha hb
  rcases List.mem_map.mp ha with ⟨r, hr, rfl⟩
  have hlt := h1 r hr
  have heq : idf r = idf x := by simpa using hb
  omega

theorem bound_of_map {α : Type} (idf : α → Int) (f : α → α)
    (hf : ∀ a, idf (f a) = idf a) (l : List α) (n : Int)
    (h1 : ∀ r ∈ l, idf r < n) : ∀ r ∈ l.map f, idf r < n := by
  intro r hr
  rcases List.mem_map.mp hr with ⟨a, ha, rfl⟩
  rw [hf]
  exact h1 a ha

theorem nodup_of_map {α : Type} (idf : α → Int) (f : α → α)
    (hf : ∀ a, idf (f a) = idf a) (l : List α)
    (h2 : (l.map idf).Nodup) : ((l.map f).map idf).Nodup := by
  rw [List.map_map, show idf ∘ f = idf from funext hf]
  exact h2

theorem bound_of_filter {α : Type} (idf : α → Int) (q : α → Bool) (l : List α)
    (n : Int) (h1 : ∀ r ∈ l, idf r < n) : ∀ r ∈ l.filter q, idf r < n :=
  fun r hr => h1 r (List.mem_of_mem_filter hr)

theorem nodup_of_filter {α : Type} (idf : α → Int) (q : α → Bool) (l : List α)
    (h2 : (l.map idf).Nodup) : ((l.filter q).map idf).Nodup :=
  List.Nodup.sublist (List.Sublist.map _ (List.filter_sublist l)) h2

theorem step_nextId_mono (op : Op) (db : DB) :
    db.productsNextId ≤ (step op db).productsNextId ∧
    db.servicesNextId ≤ (step op db).servicesNextId := by
  cases op <;>
    simp [step, create_product, update_product, delete_product, read_product,
      read_products, create_service, update_service, delete_service,
      read_service, read_services]

theorem run_nextId_mono (ops : List Op) (db : DB) :
    db.productsNextId ≤ (run ops db).productsNextId ∧
    db.servicesNextId ≤ (run ops db).servicesNextId := by
  induction ops generalizing db with
  | nil => exact ⟨le_refl _, le_refl _⟩
  | cons op ops ih =>
    have h1 := step_nextId_mono op db
    have h2 := ih (step op db)
    exact ⟨le_trans h1.1 h2.1, le_trans h1.2 h2.2⟩

theorem WF_step (op : Op) (db : DB) (h : WF db) : WF (step op db) := by
  obtain ⟨h1, h2, h3, h4⟩ := h
  cases op with
  | createP p =>
    refine ⟨?_, ?_, h3, h4⟩
    · show ∀ r ∈ db.products ++ [(⟨db.productsNextId, p.name, p.type,
          p.buying_price, p.selling_price⟩ : ProductRow)],
        r.id < db.productsNextId + 1
      exact bound_insert (fun r => r.id) db.products db.productsNextId
        ⟨db.productsNextId, p.name, p.type, p.buying_price, p.selling_price⟩
        rfl h1
    · show ((db.products ++ [(⟨db.productsNextId, p.name, p.type,
          p.buying_price, p.selling_price⟩ : ProductRow)]).map
          (fun r => r.id)).Nodup
      exact nodup_insert_id (fun r => r.id) db.products db.productsNextId
        ⟨db.productsNextId, p.name, p.type, p.buying_price, p.selling_price⟩
        rfl h1 h2
  | listP => exact ⟨h1, h2, h3, h4⟩
  | readP i => exact ⟨h1, h2, h3, h4⟩
  | updateP i p =>
    have hf : ∀ a : ProductRow, ((if a.id == i then
        (⟨a.id, p.name, p.type, p.buying_price, p.selling_price⟩ : ProductRow)
      else a)).id = a.id := by
      intro a
      cases ha : a.id == i <;> simp [ha]
    refine ⟨?_, ?_, h3, h4⟩
    · show ∀ r ∈ db.products.map (fun r => if r.id == i then
          (⟨r.id, p.name, p.type, p.buying_price, p.selling_price⟩ : ProductRow)
        else r), r.id < db.productsNextId
      exact bound_of_map (fun r => r.id)
        (fun r => if r.id == i then
          (⟨r.id, p.name, p.type, p.buying_price, p.selling_price⟩ : ProductRow)
        else r) hf db.products db.productsNextId h1
    · show ((db.products.map (fun r => if r.id == i then
          (⟨r.id, p.name, p.type, p.buying_price, p.selling_price⟩ : ProductRow)
        else r)).map (fun r => r.id)).Nodup
      exact nodup_of_map (fun r => r.id)
        (fun r => if r.id == i then
          (⟨r.id, p.name, p.type, p.buying_price, p.selling_price⟩ : ProductRow)
        else r) hf db.products h2
  | deleteP i =>
    refine ⟨?_, ?_, h3, h4⟩
    · show ∀ r ∈ db.products.filter (fun r => !(r.id == i)),
        r.id < db.productsNextId
      exact bound_of_filter (fun r => r.id) (fun r => !(r.id == i))
        db.products db.productsNextId h1
    · show ((db.products.filter (fun r => !(r.id == i))).map
          (fun r => r.id)).Nodup
      exact nodup_of_filter (fun r => r.id) (fun r => !(r.id == i))
        db.products h2
  | createS s =>
    refine ⟨h1, h2, ?_, ?_⟩
    · show ∀ r ∈ db.services ++ [(⟨db.servicesNextId, s.name, s.description,
          s.price⟩ : ServiceRow)], r.id < db.servicesNextId + 1
      exact bound_insert (fun r => r.id) db.services db.servicesNextId
        ⟨db.servicesNextId, s.name, s.description, s.price⟩ rfl h3
    · show ((db.services ++ [(⟨db.servicesNextId, s.name, s.description,
          s.price⟩ : ServiceRow)]).map (fun r => r.id)).Nodup
      exact nodup_insert_id (fun r => r.id) db.services db.servicesNextId
        ⟨db.servicesNextId, s.name, s.description, s.price⟩ rfl h3 h4
  | listS => exact ⟨h1, h2, h3, h4⟩
  | readS i => exact ⟨h1, h2, h3, h4⟩
  | updateS i s =>
    have hf : ∀ a : ServiceRow, ((if a.id == i then
        (⟨a.id, s.name, s.description, s.price⟩ : ServiceRow)
      else a)).id = a.id := by
      intro a
      cases ha : a.id == i <;> simp [ha]
    refine ⟨h1, h2, ?_, ?_⟩
    · show ∀ r ∈ db.services.map (fun r => if r.id == i then
          (⟨r.id, s.name, s.description, s.price⟩ : ServiceRow)
        else r), r.id < db.servicesNextId
      exact bound_of_map (fun r => r.id)
        (fun r => if r.id == i then
          (⟨r.id, s.name, s.description, s.price⟩ : ServiceRow)
        else r) hf db.services db.servicesNextId h3
    · show ((db.services.map (fun r => if r.id == i then
          (⟨r.id, s.name, s.description, s.price⟩ : ServiceRow)
        else r)).map (fun r => r.id)).Nodup
      exact nodup_of_map (fun r => r.id)
        (fun r => if r.id == i then
          (⟨r.id, s.name, s.description, s.price⟩ : ServiceRow)
        else r) hf db.services h4
  | deleteS i =>
    refine ⟨h1, h2, ?_, ?_⟩
    · show ∀ r ∈ db.services.filter (fun r => !(r.id == i)),
        r.id < db.servicesNextId
      exact bound_of_filter (fun r => r.id) (fun r => !(r.id == i))
        db.services db.servicesNextId h3
    · show ((db.services.filter (fun r => !(r.id == i))).map
          (fun r => r.id)).Nodup
      exact nodup_of_filter (fun r => r.id) (fun r => !(r.id == i))
        db.services h4

theorem WF_run (ops : List Op) (db : DB) (h : WF db) : WF (run ops db) := by
  induction ops generalizing db with
  | nil => exact h
  | cons op ops ih => exact ih _ (WF_step op db h)

/-- Claim C8: in every state reachable from a well-formed database, ids are
unique within each table; and the id a create assigns (the table's current
AUTOINCREMENT value) stays strictly below the sequence after any later run of
requests, so no later create can ever assign it again — deletes included,
since nothing rewinds the sequence. -/
theorem ids_unique_and_never_reused (db : DB) (hwf : WF db) (ops : List Op)
    (p : Product) (s : Service) :
    WF (run ops db)
    ∧ ((run ops db).products.map (fun r => r.id)).Nodup
    ∧ ((run ops db).services.map (fun r => r.id)).Nodup
    ∧ db.productsNextId < (run ops (create_product p none db).2).productsNextId
    ∧ db.servicesNextId < (run ops (create_service s none db).2).servicesNextId := by
  have hr := WF_run ops db hwf
  refine ⟨hr, hr.2.1, hr.2.2.2, ?_, ?_⟩
  · have hmono := (run_nextId_mono ops (create_product p none db).2).1
    have hstep : (create_product p none db).2.productsNextId
        = db.productsNextId + 1 := rfl
    omega
  · have hmono := (run_nextId_mono ops (create_service s none db).2).2
    have hstep : (create_service s none db).2.servicesNextId
        = db.servicesNextId + 1 := rfl
    omega

theorem ids_unique_and_never_reused_witness :
    WF emptyDB
    ∧ emptyDB.productsNextId <
      (run [Op.deleteP 1] (create_product widget none emptyDB).2).productsNextId :=
  ⟨by decide,
    (ids_unique_and_never_reused emptyDB (by decide) [Op.deleteP 1]
      widget repair).2.2.2.1⟩

end ITech
